import Mathlib

/-!
Verification of the static-site generation pipeline of this repository.

Shallow embedding of packages/astro/src/core/build/generate.ts together
with the bookkeeping module packages/astro/src/core/build/internal.ts.
Pure functions of the source become Lean functions; the mutable build
state (the built-paths set, the route cache, the page-name accumulator)
becomes explicit state passing; filesystem and logging effects become an
event trace; fallible steps return Except or carry an error field.

Helpers that live in modules of this repository that are not part of the
given sources (core/path.ts, core/routing/match.ts,
core/render/route-cache.ts, core/endpoint/index.ts, prerender/utils.ts)
are modelled from the specification; each such definition carries a doc
comment starting with: Modelled from the spec.
-/

namespace AstroBuild

/-- Modelled from the spec: removeTrailingForwardSlash of core/path.ts
(not under src/). The spec describes normalization as stripping a
trailing slash; the JS helper is
path.endsWith("/") ? path.slice(0, path.length - 1) : path.
Stated on the character list of the string (the last character is a
slash, and slicing off the last character drops it) so that it
evaluates by kernel reduction. -/
def removeTrailingForwardSlash (path : String) : String :=
  if path.data.getLast? = some '/' then String.mk path.data.dropLast else path

/-- Modelled from the spec: removeLeadingForwardSlash of core/path.ts
(not under src/): drops a single leading slash when present. Stated on
the character list of the string. -/
def removeLeadingForwardSlash (path : String) : String :=
  if path.data.head? = some '/' then String.mk path.data.tail else path

/-- The JS test pathname.endsWith("/") on the character list of the
string. -/
def endsWithSlash (path : String) : Bool :=
  path.data.getLast? == some '/'

/-- Parameter bindings of one enumerated static path (the params record
handed back by getStaticPaths). -/
abbrev Params := List (String × String)

/-- One entry of result.staticPaths as consumed by getPathsForRoute:
only its params field is read there (staticPath.params). -/
structure StaticPath where
  params : Params
deriving DecidableEq

/-- route.type of the RouteData type: a route renders a page or an
endpoint. -/
inductive RouteType where
  | page
  | endpoint
deriving DecidableEq

/-- The fields of RouteData that generate.ts reads. The id field stands
for JS object identity: the comparison matchedRoute === route of
getPathsForRoute compares references, which the embedding renders as
comparison of these identifiers (distinct manifest entries carry
distinct ids). The patternTest field stands for route.pattern.test. -/
structure RouteData where
  id : Nat
  component : String
  type : RouteType
  pathname : Option String
  generate : Params → String
  patternTest : String → Bool
  prerender : Bool

/-- Modelled from the spec: matchRoute of core/routing/match.ts (not
under src/): the first manifest entry, in priority order, whose segment
pattern matches the pathname. -/
def matchRoute (pathname : String) (manifest : List RouteData) : Option RouteData :=
  manifest.find? (fun route => route.patternTest pathname)

/-- JS Set.add on the model of a set of strings as its insertion-ordered
element list: idempotent insertion at the end. -/
def setAdd (s : List String) (x : String) : List String :=
  if x ∈ s then s else s ++ [x]

/-- The value returned by getPathsForRoute paired with the built-paths
set as it stands after the call (the source mutates the set in place). -/
structure PathsResult where
  paths : List String
  builtPaths : List String

/-- generate.ts, getPathsForRoute (lines 224-285). Fixed-pathname
branch: push the pathname and add it (verbatim) to builtPaths.  Dynamic
branch: map each static path through
staticPath.params && route.generate(staticPath.params), filter each
candidate (keep it when its trailing-slash-stripped form is not yet in
builtPaths, otherwise keep it only when matchRoute hands the current
route back), then add the stripped form of every kept path to
builtPaths.  The enumeration result of callGetStaticPaths is the
staticPaths argument here; the surrounding cache write is modelled
separately below (callGetStaticPathsAndCache). Since the params field
of a validated static path is always an object (truthy), the JS guard
staticPath.params reduces to applying the generator. -/
def getPathsForRoute (route : RouteData) (staticPaths : List StaticPath)
    (manifest : List RouteData) (builtPaths : List String) : PathsResult :=
  match route.pathname with
  | some pathname =>
      { paths := [pathname]
        builtPaths := setAdd builtPaths pathname }
  | none =>
      let candidates := staticPaths.map (fun staticPath => route.generate staticPath.params)
      let kept := candidates.filter (fun staticPath =>
        if removeTrailingForwardSlash staticPath ∈ builtPaths then
          match matchRoute staticPath manifest with
          | some matchedRoute => matchedRoute.id == route.id
          | none => false
        else
          true)
      { paths := kept
        builtPaths := kept.foldl
          (fun bp staticPath => setAdd bp (removeTrailingForwardSlash staticPath)) builtPaths }

/-- config.trailingSlash. -/
inductive TrailingSlashPolicy where
  | always
  | never
  | ignore
deriving DecidableEq

/-- config.build.format. -/
inductive BuildFormat where
  | directory
  | file
deriving DecidableEq

/-- generate.ts, shouldAppendForwardSlash (lines 297-315): the switch on
the trailing-slash policy, with the inner switch on the build format in
the ignore case. -/
def shouldAppendForwardSlash (trailingSlash : TrailingSlashPolicy)
    (buildFormat : BuildFormat) : Bool :=
  match trailingSlash with
  | .always => true
  | .never => false
  | .ignore =>
      match buildFormat with
      | .directory => true
      | .file => false

/-- generate.ts, addPageName (lines 317-324), as the pure page-name
computation: when a forward slash should be appended the name is the
pathname with a trailing slash ensured and the leading slash removed,
otherwise just with the leading slash removed. -/
def addPageName (pathname : String) (trailingSlash : TrailingSlashPolicy)
    (buildFormat : BuildFormat) : String :=
  if shouldAppendForwardSlash trailingSlash buildFormat then
    removeLeadingForwardSlash (if endsWithSlash pathname then pathname else pathname ++ "/")
  else
    removeLeadingForwardSlash pathname

/-- One stored value of opts.routeCache: the enumeration result kept for
a route (the staticPaths array of the RouteCacheEntry). -/
structure RouteCacheEntry where
  staticPaths : List StaticPath
deriving DecidableEq

/-- The state threaded through path resolution: the route cache (keyed
by route identity) together with a count of how many times the
path-enumeration callback (getStaticPaths) has been invoked. -/
structure ResolveState where
  cache : List (Nat × RouteCacheEntry)
  invocations : Nat
deriving DecidableEq

/-- routeCache.get on the list model of the cache map: the most recent
entry stored for the given route identity. -/
def cacheGet (cache : List (Nat × RouteCacheEntry)) (routeId : Nat) : Option RouteCacheEntry :=
  (cache.find? (fun entry => entry.1 == routeId)).map (fun entry => entry.2)

/-- generate.ts, getPathsForRoute dynamic branch, lines 236-259: invoke
the enumeration callback through callGetStaticPaths (which, as called
here, receives no cache and therefore always runs the callback), then
store the result in the route cache: opts.routeCache.set(route, result).
The newest entry is prepended, matching Map.set overwrite semantics
under cacheGet. -/
def callGetStaticPathsAndCache (route : RouteData)
    (enumerate : Unit → List StaticPath) (st : ResolveState) :
    RouteCacheEntry × ResolveState :=
  let result : RouteCacheEntry := { staticPaths := enumerate () }
  (result, { cache := (route.id, result) :: st.cache, invocations := st.invocations + 1 })

/-- Modelled from the spec: the cache-consulting resolution of the
route-cache module (core/render/route-cache.ts, not under src/), used by
later resolutions of the same route within one build: the Route Cache is
consulted first, a hit returns the stored enumeration unchanged without
invoking the enumeration callback, and a miss computes and stores it as
generate.ts does. -/
def resolveStaticPathsCached (route : RouteData)
    (enumerate : Unit → List StaticPath) (st : ResolveState) :
    RouteCacheEntry × ResolveState :=
  match cacheGet st.cache route.id with
  | some cached => (cached, st)
  | none => callGetStaticPathsAndCache route enumerate st

/-- The build-state changes and effects that generate.ts performs,
recorded as an ordered event trace: the page-name accumulator push of
addPageName, a render invocation (callEndpoint or renderPage), the
recursive directory creation, the file write, the draft-skip log line,
one generated page, and the build-generated integration hook. -/
inductive GenEvent where
  | pageNameAdded (name : String)
  | rendered (pathname : String)
  | madeDir (pathname : String)
  | wroteFile (pathname : String)
  | loggedDraftSkip (component : String)
  | generatedPage (component : String)
  | ranBuildHook
deriving DecidableEq

/-- The errors generatePath can raise: a redirect rejected by the
configured policy, or a rendering error carrying the component identity
it was tagged with (none when the original error is an AstroError, which
is re-thrown untouched). -/
inductive GenError where
  | redirectNotAllowed
  | renderFailed (id : Option String)
deriving DecidableEq

/-- The part of a Response that generate.ts inspects: whether a body is
present, plus the status and location that the redirect policy predicate
examines. -/
structure ResponseModel where
  status : Nat
  location : Option String
  hasBody : Bool
deriving DecidableEq

/-- Modelled from the spec: throwIfRedirectNotAllowed of
core/endpoint/index.ts (not under src/): raises RedirectNotAllowedError
exactly when the configured redirect-policy predicate isRedirectAllowed
rejects the response. -/
def throwIfRedirectNotAllowed (isRedirectAllowed : ResponseModel → Bool)
    (response : ResponseModel) : Except GenError Unit :=
  if isRedirectAllowed response then Except.ok () else Except.error GenError.redirectNotAllowed

/-- Outcome of callEndpoint: either a full Response, or the simple
body-plus-encoding shape of an endpoint output. -/
inductive EndpointResult where
  | response (response : ResponseModel)
  | simple (body : String) (encoding : Option String)

/-- Outcome of rendering a page (renderPage, possibly through the
middleware chain): a Response on success, or a thrown error carrying
whether it is an AstroError and the id tag it already carries, if any. -/
inductive PageRenderResult where
  | success (response : ResponseModel)
  | failure (isAstroError : Bool) (errId : Option String)

/-- The trace of one generatePath call together with the error it
re-throws, if any. -/
structure GenPathOutput where
  events : List GenEvent
  error : Option GenError
deriving DecidableEq

/-- generate.ts, generatePath (lines 354-533), as an event trace.  In
source order: the page-name push (only for page-type routes, line 372);
then the endpoint branch (callEndpoint; on a response-type result the
redirect check, then the empty-body early return) or the page branch
(renderPage, a thrown error tagged with the component id when it is not
an AstroError and carries no id yet, then the redirect check, then the
empty-body early return); finally the mkdir and writeFile of the output
location (lines 528-532).  The render outcomes are inputs, supplied by
the external renderer collaborators. -/
def generatePath (pathname : String) (route : RouteData)
    (isRedirectAllowed : ResponseModel → Bool)
    (endpointResult : EndpointResult) (pageResult : PageRenderResult)
    (trailingSlash : TrailingSlashPolicy) (buildFormat : BuildFormat) : GenPathOutput :=
  let nameEvents :=
    if route.type = RouteType.page then
      [GenEvent.pageNameAdded (addPageName pathname trailingSlash buildFormat)]
    else
      []
  match route.type with
  | .endpoint =>
      match endpointResult with
      | .response response =>
          match throwIfRedirectNotAllowed isRedirectAllowed response with
          | .error e => { events := nameEvents ++ [GenEvent.rendered pathname], error := some e }
          | .ok _ =>
              if response.hasBody then
                { events := nameEvents ++
                    [GenEvent.rendered pathname, GenEvent.madeDir pathname,
                      GenEvent.wroteFile pathname]
                  error := none }
              else
                { events := nameEvents ++ [GenEvent.rendered pathname], error := none }
      | .simple _ _ =>
          { events := nameEvents ++
              [GenEvent.rendered pathname, GenEvent.madeDir pathname,
                GenEvent.wroteFile pathname]
            error := none }
  | .page =>
      match pageResult with
      | .failure isAstroError errId =>
          { events := nameEvents ++ [GenEvent.rendered pathname]
            error := some (GenError.renderFailed
              (if isAstroError then errId else some (errId.getD route.component))) }
      | .success response =>
          match throwIfRedirectNotAllowed isRedirectAllowed response with
          | .error e => { events := nameEvents ++ [GenEvent.rendered pathname], error := some e }
          | .ok _ =>
              if response.hasBody then
                { events := nameEvents ++
                    [GenEvent.rendered pathname, GenEvent.madeDir pathname,
                      GenEvent.wroteFile pathname]
                  error := none }
              else
                { events := nameEvents ++ [GenEvent.rendered pathname], error := none }

/-- Whether an event is a filesystem effect (directory creation or file
write). -/
def isFsEffect : GenEvent → Bool
  | .madeDir _ => true
  | .wroteFile _ => true
  | _ => false

/-- Whether an event is a render invocation. -/
def isRenderEvent : GenEvent → Bool
  | .rendered _ => true
  | _ => false

/-- The fields of the compiled page module that shouldSkipDraft reads:
whether the module carries a frontmatter export at all, and the value of
frontmatter?.draft when it is a boolean (none stands for absent or
non-boolean). -/
structure PageModule where
  hasFrontmatter : Bool
  frontmatterDraft : Option Bool
deriving DecidableEq

/-- generate.ts, shouldSkipDraft (lines 61-69): drafts are disabled in
the markdown settings, the module has a frontmatter export, and
frontmatter?.draft === true. -/
def shouldSkipDraft (pageModule : PageModule) (draftsEnabled : Bool) : Bool :=
  !draftsEnabled && pageModule.hasFrontmatter && pageModule.frontmatterDraft == some true

/-- The result of one generatePage call: its event trace, the
built-paths set afterwards, and the error that aborted it, if any. -/
structure GenPageOutput where
  events : List GenEvent
  builtPaths : List String
  error : Option GenError

/-- generate.ts, generatePage (lines 162-222), as an event trace over
explicit built-paths state.  When shouldSkipDraft holds, the skip is
logged and the function returns with every piece of build state
untouched (line 191-194, before any path resolution).  Otherwise the
paths are resolved through getPathsForRoute (which updates the
built-paths set) and each resolved path is generated in order through
generatePath; a thrown error aborts the remaining paths.  The render
outcomes per path are inputs, supplied by the external renderer. -/
def generatePage (route : RouteData) (pageModule : PageModule) (draftsEnabled : Bool)
    (staticPaths : List StaticPath) (manifest : List RouteData)
    (isRedirectAllowed : ResponseModel → Bool)
    (endpointResultFor : String → EndpointResult)
    (pageResultFor : String → PageRenderResult)
    (trailingSlash : TrailingSlashPolicy) (buildFormat : BuildFormat)
    (builtPaths : List String) : GenPageOutput :=
  if shouldSkipDraft pageModule draftsEnabled then
    { events := [GenEvent.loggedDraftSkip route.component]
      builtPaths := builtPaths
      error := none }
  else
    let resolved := getPathsForRoute route staticPaths manifest builtPaths
    let step := fun (acc : List GenEvent × Option GenError) (p : String) =>
      match acc.2 with
      | some _ => acc
      | none =>
          let out := generatePath p route isRedirectAllowed
            (endpointResultFor p) (pageResultFor p) trailingSlash buildFormat
          (acc.1 ++ out.events, out.error)
    let looped := resolved.paths.foldl step ([], none)
    { events := looped.1
      builtPaths := resolved.builtPaths
      error := looped.2 }

/-- config.output. -/
inductive OutputMode where
  | static
  | server
  | hybrid
deriving DecidableEq

/-- Modelled from the spec: isHybridOutput of prerender/utils.ts (not
under src/): whether the configured output mode is the hybrid one
(SSR with prerender by default). -/
def isHybridOutput (mode : OutputMode) : Bool :=
  mode == OutputMode.hybrid

/-- One entry of the build internals page map as generatePages iterates
it: the page with its route. -/
structure PageEntry where
  route : RouteData

/-- internal.ts, hasPrerenderedPages (lines 770-777): some page of the
build internals has a route marked prerender. -/
def hasPrerenderedPages (pages : List PageEntry) : Bool :=
  pages.any (fun page => page.route.prerender)

/-- generate.ts, generatePages (lines 96-143), as an event trace.  The
ssr flag is output === server or hybrid output; when it is set and no
page is prerendered the function returns at once (line 102), before any
page generation and before the build-generated hook.  Otherwise every
page (in SSR mode only the prerendered ones, lines 109-125) is generated
in order — each generatePage call abstracted to one event — and the
runHookBuildGenerated call at the end is its own event. -/
def generatePages (mode : OutputMode) (pages : List PageEntry) : List GenEvent :=
  let ssr := mode == OutputMode.server || isHybridOutput mode
  if ssr && !hasPrerenderedPages pages then
    []
  else
    let pageEvents :=
      if ssr then
        (pages.filter (fun page => page.route.prerender)).map
          (fun page => GenEvent.generatedPage page.route.component)
      else
        pages.map (fun page => GenEvent.generatedPage page.route.component)
    pageEvents ++ [GenEvent.ranBuildHook]

/-- Membership in the set after a JS Set.add: the old elements plus the
added one. -/
theorem mem_setAdd {s : List String} {x y : String} :
    x ∈ setAdd s y ↔ x ∈ s ∨ x = y := by
  unfold setAdd
  split
  · rename_i h
    constructor
    · exact Or.inl
    · rintro (hx | rfl)
      · exact hx
      · exact h
  · simp [List.mem_append]

/-- Membership after folding trailing-slash-stripped insertions over a
list: the old elements plus the stripped forms of the list. -/
theorem mem_foldl_setAdd (l : List String) (bp : List String) (x : String) :
    x ∈ l.foldl (fun b p => setAdd b (removeTrailingForwardSlash p)) bp ↔
      x ∈ bp ∨ x ∈ l.map removeTrailingForwardSlash := by
  induction l generalizing bp with
  | nil => simp
  | cons head tail ih =>
      simp only [List.foldl_cons, List.map_cons, List.mem_cons, ih, mem_setAdd]
      tauto

/-- Claim C6: the decision whether an output path receives a trailing
slash is the pure total function shouldAppendForwardSlash of exactly the
trailing-slash policy and the build format: always yields true, never
yields false, and ignore yields true for directory format and false for
file format, for all inputs. -/
theorem c6_shouldAppendForwardSlash_table :
    ∀ buildFormat : BuildFormat,
      shouldAppendForwardSlash TrailingSlashPolicy.always buildFormat = true ∧
      shouldAppendForwardSlash TrailingSlashPolicy.never buildFormat = false ∧
      shouldAppendForwardSlash TrailingSlashPolicy.ignore BuildFormat.directory = true ∧
      shouldAppendForwardSlash TrailingSlashPolicy.ignore BuildFormat.file = false := by
  intro buildFormat
  cases buildFormat <;> simp [shouldAppendForwardSlash]

/-- Claim C4: a route carrying a fixed pathname resolves to exactly the
single-element list holding that pathname, and the pathname is in the
built-paths set immediately after resolution, which runs before any
rendering of the paths of that route. -/
theorem c4_fixed_pathname (route : RouteData) (staticPaths : List StaticPath)
    (manifest : List RouteData) (builtPaths : List String) (p : String)
    (hfixed : route.pathname = some p) :
    (getPathsForRoute route staticPaths manifest builtPaths).paths = [p] ∧
    p ∈ (getPathsForRoute route staticPaths manifest builtPaths).builtPaths := by
  simp [getPathsForRoute, hfixed, mem_setAdd]

/-- Witness for claim C4 at a concrete fixed-pathname route. -/
theorem c4_fixed_pathname_witness :
    (getPathsForRoute
        ⟨0, "src/pages/about.astro", RouteType.page, some "/about",
          fun _ => "/about", fun _ => true, true⟩ [] [] []).paths = ["/about"] ∧
    "/about" ∈ (getPathsForRoute
        ⟨0, "src/pages/about.astro", RouteType.page, some "/about",
          fun _ => "/about", fun _ => true, true⟩ [] [] []).builtPaths :=
  c4_fixed_pathname _ [] [] [] "/about" rfl

/-- Claim C3: within one build, after the generate-phase resolution of a
route without a fixed pathname has run (invoking the enumeration
callback once and storing its result in the route cache), a second
resolution of the same route is a pure cache hit: it returns the
identical ordered enumeration and neither the cache nor the callback
invocation count changes. -/
theorem c3_route_cache_idempotent (route : RouteData)
    (enumerate : Unit → List StaticPath) (st : ResolveState) :
    (resolveStaticPathsCached route enumerate
        (callGetStaticPathsAndCache route enumerate st).2).1 =
      (callGetStaticPathsAndCache route enumerate st).1 ∧
    (resolveStaticPathsCached route enumerate
        (callGetStaticPathsAndCache route enumerate st).2).2 =
      (callGetStaticPathsAndCache route enumerate st).2 ∧
    (callGetStaticPathsAndCache route enumerate st).2.invocations = st.invocations + 1 := by
  simp [callGetStaticPathsAndCache, resolveStaticPathsCached, cacheGet, List.find?]

/-- Claim C1: in the dynamic branch of path resolution, a candidate
pathname whose trailing-slash-stripped form is already in the
built-paths set is kept exactly when matching it against the full
priority-ordered manifest yields the route currently being resolved;
otherwise it is excluded from the paths to generate. -/
theorem c1_collision_arbiter (route : RouteData) (staticPaths : List StaticPath)
    (manifest : List RouteData) (builtPaths : List String) (p : String)
    (hdyn : route.pathname = none)
    (hcand : p ∈ staticPaths.map (fun staticPath => route.generate staticPath.params))
    (hbuilt : removeTrailingForwardSlash p ∈ builtPaths) :
    p ∈ (getPathsForRoute route staticPaths manifest builtPaths).paths ↔
      ∃ matched, matchRoute p manifest = some matched ∧ matched.id = route.id := by
  simp only [getPathsForRoute, hdyn]
  rw [List.mem_filter]
  simp only [hcand, true_and, if_pos hbuilt]
  cases hm : matchRoute p manifest with
  | none => simp
  | some matched => simp [Nat.beq_eq_true_eq]

/-- Witness for claim C1: two dynamic routes both enumerate /x; when the
lower-priority route resolves after /x has been built, its candidate is
rejected, because the manifest match yields the higher-priority route. -/
theorem c1_collision_arbiter_witness :
    "/x" ∉ (getPathsForRoute
        ⟨1, "src/pages/[all].astro", RouteType.page, none, fun _ => "/x",
          fun s => s == "/x", true⟩
        [⟨[("all", "x")]⟩]
        [⟨0, "src/pages/x.astro", RouteType.page, none, fun _ => "/x",
            fun s => s == "/x", true⟩,
          ⟨1, "src/pages/[all].astro", RouteType.page, none, fun _ => "/x",
            fun s => s == "/x", true⟩]
        ["/x"]).paths := by
  intro hmem
  have h := (c1_collision_arbiter
      ⟨1, "src/pages/[all].astro", RouteType.page, none, fun _ => "/x",
        fun s => s == "/x", true⟩
      [⟨[("all", "x")]⟩]
      [⟨0, "src/pages/x.astro", RouteType.page, none, fun _ => "/x",
          fun s => s == "/x", true⟩,
        ⟨1, "src/pages/[all].astro", RouteType.page, none, fun _ => "/x",
          fun s => s == "/x", true⟩]
      ["/x"] "/x" rfl (by simp) (by decide)).mp hmem
  obtain ⟨matched, hfound, hid⟩ := h
  have : matched = ⟨0, "src/pages/x.astro", RouteType.page, none, fun _ => "/x",
      fun s => s == "/x", true⟩ := by
    have : matchRoute "/x"
        [⟨0, "src/pages/x.astro", RouteType.page, none, fun _ => "/x",
            fun s => s == "/x", true⟩,
          ⟨1, "src/pages/[all].astro", RouteType.page, none, fun _ => "/x",
            fun s => s == "/x", true⟩] =
        some ⟨0, "src/pages/x.astro", RouteType.page, none, fun _ => "/x",
          fun s => s == "/x", true⟩ := by
      simp [matchRoute, List.find?]
    rw [this] at hfound
    exact (Option.some.injEq _ _).mp hfound.symm ▸ rfl
  subst this
  simp at hid

/-- Claim C2 counterexample: a dynamic route that enumerates the same
pathname /x twice keeps both occurrences in the paths to generate; the
built-paths set is only updated after the whole filtering pass, so the
later duplicate is not skipped. -/
theorem c2_duplicates_counterexample :
    (getPathsForRoute
        ⟨0, "src/pages/[p].astro", RouteType.page, none, fun _ => "/x",
          fun _ => true, true⟩
        [⟨[("p", "x")]⟩, ⟨[("p", "x")]⟩] [] []).paths = ["/x", "/x"] := by
  decide

/-- Claim C2 amended: the admission decision of the dynamic branch is
taken against the built-paths set as it stood before the pass, so every
occurrence of a newly enumerated pathname absent from that set is kept:
its number of occurrences among the generated paths equals its number of
occurrences among the enumerated candidates (all duplicates are
generated, without consulting the manifest-based arbitration). -/
theorem c2_duplicates_all_kept (route : RouteData) (staticPaths : List StaticPath)
    (manifest : List RouteData) (builtPaths : List String) (p : String)
    (hdyn : route.pathname = none)
    (hnew : removeTrailingForwardSlash p ∉ builtPaths) :
    (getPathsForRoute route staticPaths manifest builtPaths).paths.count p =
      (staticPaths.map (fun staticPath => route.generate staticPath.params)).count p := by
  simp only [getPathsForRoute, hdyn]
  apply List.count_filter
  simp [hnew]

/-- Witness for the amended claim C2 at a concrete route enumerating /x
twice: both occurrences are counted among the generated paths. -/
theorem c2_duplicates_all_kept_witness :
    (getPathsForRoute
        ⟨0, "src/pages/[q].astro", RouteType.page, none, fun _ => "/y",
          fun _ => true, true⟩
        [⟨[("q", "y")]⟩, ⟨[("q", "y")]⟩] [] []).paths.count "/y" =
      ([(⟨[("q", "y")]⟩ : StaticPath), ⟨[("q", "y")]⟩].map
        (fun staticPath => (fun _ => "/y" : Params → String) staticPath.params)).count "/y" :=
  c2_duplicates_all_kept
    ⟨0, "src/pages/[q].astro", RouteType.page, none, fun _ => "/y", fun _ => true, true⟩
    [⟨[("q", "y")]⟩, ⟨[("q", "y")]⟩] [] [] "/y" rfl (by decide)

/-- Claim C5 counterexample: an enumerated entry whose generated
pathname is empty is not dropped: with an empty built-paths set the
empty pathname passes the filter and stays in the paths to generate. -/
theorem c5_empty_path_counterexample :
    (getPathsForRoute
        ⟨0, "src/pages/[p].astro", RouteType.page, none, fun _ => "",
          fun _ => true, true⟩
        [⟨[("p", "x")]⟩] [] []).paths = [""] := by
  decide

/-- Claim C5 amended: each enumerated binding is mapped through the
route generator to a pathname, but no emptiness check is applied: any
candidate — the empty pathname included — whose stripped form is not yet
in the built-paths set is kept among the paths to generate. -/
theorem c5_generator_no_empty_drop (route : RouteData) (staticPaths : List StaticPath)
    (manifest : List RouteData) (builtPaths : List String) (p : String)
    (hdyn : route.pathname = none)
    (hcand : p ∈ staticPaths.map (fun staticPath => route.generate staticPath.params))
    (hnew : removeTrailingForwardSlash p ∉ builtPaths) :
    p ∈ (getPathsForRoute route staticPaths manifest builtPaths).paths := by
  simp only [getPathsForRoute, hdyn]
  rw [List.mem_filter]
  exact ⟨hcand, by simp [hnew]⟩

/-- Witness for the amended claim C5: a concrete route whose generator
yields the empty pathname keeps that empty pathname. -/
theorem c5_generator_no_empty_drop_witness :
    "" ∈ (getPathsForRoute
        ⟨0, "src/pages/[r].astro", RouteType.page, none, fun _ => "",
          fun _ => true, true⟩
        [⟨[("r", "z")]⟩] [] []).paths :=
  c5_generator_no_empty_drop
    ⟨0, "src/pages/[r].astro", RouteType.page, none, fun _ => "", fun _ => true, true⟩
    [⟨[("r", "z")]⟩] [] [] "" rfl (by simp) (by decide)

/-- Claim C9 counterexample: the root route carries the fixed pathname
/ and path resolution stores it in the built-paths set verbatim, not in
trailing-slash-stripped form: / is stored although stripping its
trailing slash would give the empty string. -/
theorem c9_unnormalized_counterexample :
    "/" ∈ (getPathsForRoute
        ⟨0, "src/pages/index.astro", RouteType.page, some "/", fun _ => "/",
          fun _ => true, true⟩ [] [] []).builtPaths ∧
      removeTrailingForwardSlash "/" ≠ "/" := by
  decide

/-- Claim C9 amended: across every path-resolution step the built-paths
set only grows (no element is ever removed), and every element it gains
is either the trailing-slash-stripped form of a generated dynamic path
or the verbatim fixed pathname of the resolved route (which may itself
end in a slash, as / does). -/
theorem c9_builtPaths_monotone (route : RouteData) (staticPaths : List StaticPath)
    (manifest : List RouteData) (builtPaths : List String) :
    (∀ x ∈ builtPaths,
      x ∈ (getPathsForRoute route staticPaths manifest builtPaths).builtPaths) ∧
    (∀ x ∈ (getPathsForRoute route staticPaths manifest builtPaths).builtPaths,
      x ∈ builtPaths ∨
        x ∈ (getPathsForRoute route staticPaths manifest builtPaths).paths.map
          removeTrailingForwardSlash ∨
        route.pathname = some x) := by
  cases hp : route.pathname with
  | some q =>
      constructor
      · intro x hx
        simp only [getPathsForRoute, hp]
        exact mem_setAdd.mpr (Or.inl hx)
      · intro x hx
        simp only [getPathsForRoute, hp] at hx
        rcases mem_setAdd.mp hx with hx | rfl
        · exact Or.inl hx
        · exact Or.inr (Or.inr rfl)
  | none =>
      constructor
      · intro x hx
        simp only [getPathsForRoute, hp]
        exact (mem_foldl_setAdd _ _ _).mpr (Or.inl hx)
      · intro x hx
        simp only [getPathsForRoute, hp] at hx ⊢
        rcases (mem_foldl_setAdd _ _ _).mp hx with hx | hx
        · exact Or.inl hx
        · exact Or.inr (Or.inl hx)

/-- Witness for the amended claim C9 at a concrete resolution: an
element already present stays present, and the stripped form of the
generated path joins the set. -/
theorem c9_builtPaths_monotone_witness :
    "/kept" ∈ (getPathsForRoute
        ⟨0, "src/pages/[s].astro", RouteType.page, none, fun _ => "/new/",
          fun _ => true, true⟩ [⟨[("s", "n")]⟩] [] ["/kept"]).builtPaths :=
  (c9_builtPaths_monotone
      ⟨0, "src/pages/[s].astro", RouteType.page, none, fun _ => "/new/",
        fun _ => true, true⟩ [⟨[("s", "n")]⟩] [] ["/kept"]).1
    "/kept" (by decide)

/-- Claim C7: when the render of a path — page or endpoint — produces a
response whose redirect the configured policy rejects, generatePath
raises RedirectNotAllowedError and its event trace contains no directory
creation and no file write: the error comes strictly before any
filesystem effect. -/
theorem c7_redirect_rejected_before_write (pathname : String) (route : RouteData)
    (isRedirectAllowed : ResponseModel → Bool)
    (endpointResult : EndpointResult) (pageResult : PageRenderResult)
    (trailingSlash : TrailingSlashPolicy) (buildFormat : BuildFormat)
    (response : ResponseModel)
    (hpolicy : isRedirectAllowed response = false)
    (hcase :
      (route.type = RouteType.endpoint ∧ endpointResult = EndpointResult.response response) ∨
      (route.type = RouteType.page ∧ pageResult = PageRenderResult.success response)) :
    (generatePath pathname route isRedirectAllowed endpointResult pageResult
        trailingSlash buildFormat).error = some GenError.redirectNotAllowed ∧
    ∀ e ∈ (generatePath pathname route isRedirectAllowed endpointResult pageResult
        trailingSlash buildFormat).events, isFsEffect e = false := by
  rcases hcase with ⟨htype, hres⟩ | ⟨htype, hres⟩ <;>
    subst hres <;>
    simp [generatePath, htype, throwIfRedirectNotAllowed, hpolicy, isFsEffect]

/-- Witness for claim C7: a concrete endpoint render returning an
external 302 under a policy that rejects it raises the error with no
filesystem effect in the trace. -/
theorem c7_redirect_rejected_before_write_witness :
    (generatePath "/go" ⟨0, "src/pages/go.ts", RouteType.endpoint, some "/go",
        fun _ => "/go", fun _ => true, true⟩
      (fun response => response.location == none)
      (EndpointResult.response ⟨302, some "https://example.com/", true⟩)
      (PageRenderResult.success ⟨200, none, true⟩)
      TrailingSlashPolicy.ignore BuildFormat.directory).error =
        some GenError.redirectNotAllowed ∧
    ∀ e ∈ (generatePath "/go" ⟨0, "src/pages/go.ts", RouteType.endpoint, some "/go",
        fun _ => "/go", fun _ => true, true⟩
      (fun response => response.location == none)
      (EndpointResult.response ⟨302, some "https://example.com/", true⟩)
      (PageRenderResult.success ⟨200, none, true⟩)
      TrailingSlashPolicy.ignore BuildFormat.directory).events, isFsEffect e = false :=
  c7_redirect_rejected_before_write "/go"
    ⟨0, "src/pages/go.ts", RouteType.endpoint, some "/go", fun _ => "/go", fun _ => true, true⟩
    (fun response => response.location == none)
    (EndpointResult.response ⟨302, some "https://example.com/", true⟩)
    (PageRenderResult.success ⟨200, none, true⟩)
    TrailingSlashPolicy.ignore BuildFormat.directory
    ⟨302, some "https://example.com/", true⟩
    (by decide) (Or.inl ⟨rfl, rfl⟩)

/-- Claim C8: a page module carrying frontmatter.draft === true while
drafts are disabled in the configuration is skipped before path
resolution: generatePage only logs the skip, performs no render
invocation and no filesystem write, and leaves the built-paths set
untouched. -/
theorem c8_draft_skip (route : RouteData) (pageModule : PageModule)
    (draftsEnabled : Bool) (staticPaths : List StaticPath) (manifest : List RouteData)
    (isRedirectAllowed : ResponseModel → Bool)
    (endpointResultFor : String → EndpointResult)
    (pageResultFor : String → PageRenderResult)
    (trailingSlash : TrailingSlashPolicy) (buildFormat : BuildFormat)
    (builtPaths : List String)
    (hdrafts : draftsEnabled = false)
    (hfm : pageModule.hasFrontmatter = true)
    (hdraft : pageModule.frontmatterDraft = some true) :
    (generatePage route pageModule draftsEnabled staticPaths manifest isRedirectAllowed
        endpointResultFor pageResultFor trailingSlash buildFormat builtPaths).events =
      [GenEvent.loggedDraftSkip route.component] ∧
    (generatePage route pageModule draftsEnabled staticPaths manifest isRedirectAllowed
        endpointResultFor pageResultFor trailingSlash buildFormat builtPaths).builtPaths =
      builtPaths ∧
    (generatePage route pageModule draftsEnabled staticPaths manifest isRedirectAllowed
        endpointResultFor pageResultFor trailingSlash buildFormat builtPaths).error = none ∧
    ∀ e ∈ (generatePage route pageModule draftsEnabled staticPaths manifest isRedirectAllowed
        endpointResultFor pageResultFor trailingSlash buildFormat builtPaths).events,
      isRenderEvent e = false ∧ isFsEffect e = false := by
  have hskip : shouldSkipDraft pageModule draftsEnabled = true := by
    simp [shouldSkipDraft, hdrafts, hfm, hdraft]
  simp [generatePage, hskip, isRenderEvent, isFsEffect]

/-- Witness for claim C8 at a concrete draft page: the trace is the
single skip log and the built-paths set is returned unchanged. -/
theorem c8_draft_skip_witness :
    (generatePage
        ⟨0, "src/pages/draft.md", RouteType.page, some "/draft", fun _ => "/draft",
          fun _ => true, true⟩
        ⟨true, some true⟩ false [] []
        (fun _ => true)
        (fun p => EndpointResult.simple p none)
        (fun _ => PageRenderResult.success ⟨200, none, true⟩)
        TrailingSlashPolicy.ignore BuildFormat.directory ["/built"]).events =
      [GenEvent.loggedDraftSkip "src/pages/draft.md"] ∧
    (generatePage
        ⟨0, "src/pages/draft.md", RouteType.page, some "/draft", fun _ => "/draft",
          fun _ => true, true⟩
        ⟨true, some true⟩ false [] []
        (fun _ => true)
        (fun p => EndpointResult.simple p none)
        (fun _ => PageRenderResult.success ⟨200, none, true⟩)
        TrailingSlashPolicy.ignore BuildFormat.directory ["/built"]).builtPaths = ["/built"] ∧
    (generatePage
        ⟨0, "src/pages/draft.md", RouteType.page, some "/draft", fun _ => "/draft",
          fun _ => true, true⟩
        ⟨true, some true⟩ false [] []
        (fun _ => true)
        (fun p => EndpointResult.simple p none)
        (fun _ => PageRenderResult.success ⟨200, none, true⟩)
        TrailingSlashPolicy.ignore BuildFormat.directory ["/built"]).error = none ∧
    ∀ e ∈ (generatePage
        ⟨0, "src/pages/draft.md", RouteType.page, some "/draft", fun _ => "/draft",
          fun _ => true, true⟩
        ⟨true, some true⟩ false [] []
        (fun _ => true)
        (fun p => EndpointResult.simple p none)
        (fun _ => PageRenderResult.success ⟨200, none, true⟩)
        TrailingSlashPolicy.ignore BuildFormat.directory ["/built"]).events,
      isRenderEvent e = false ∧ isFsEffect e = false :=
  c8_draft_skip
    ⟨0, "src/pages/draft.md", RouteType.page, some "/draft", fun _ => "/draft",
      fun _ => true, true⟩
    ⟨true, some true⟩ false [] []
    (fun _ => true)
    (fun p => EndpointResult.simple p none)
    (fun _ => PageRenderResult.success ⟨200, none, true⟩)
    TrailingSlashPolicy.ignore BuildFormat.directory ["/built"]
    rfl rfl rfl

/-- Claim C10: in server or hybrid output mode with no route marked
prerender, generatePages returns at once: its trace is empty — no page
is generated, no file is written, and the build-generated hook does not
run. -/
theorem c10_ssr_no_prerender_early_return (mode : OutputMode) (pages : List PageEntry)
    (hmode : mode = OutputMode.server ∨ mode = OutputMode.hybrid)
    (hnone : ∀ page ∈ pages, page.route.prerender = false) :
    generatePages mode pages = [] := by
  have hssr : (mode == OutputMode.server || isHybridOutput mode) = true := by
    rcases hmode with rfl | rfl <;> simp [isHybridOutput]
  have hpre : hasPrerenderedPages pages = false := by
    simp only [hasPrerenderedPages, List.any_eq_false]
    intro page hpage
    simp [hnone page hpage]
  simp [generatePages, hssr, hpre]

/-- Witness for claim C10: a concrete server-mode build whose only page
is not prerendered produces the empty trace. -/
theorem c10_ssr_no_prerender_early_return_witness :
    generatePages OutputMode.server
      [⟨⟨0, "src/pages/app.astro", RouteType.page, some "/app", fun _ => "/app",
          fun _ => true, false⟩⟩] = [] :=
  c10_ssr_no_prerender_early_return OutputMode.server
    [⟨⟨0, "src/pages/app.astro", RouteType.page, some "/app", fun _ => "/app",
        fun _ => true, false⟩⟩]
    (Or.inl rfl) (by intro page hpage; fin_cases hpage; rfl)

end AstroBuild
